import Mathlib

set_option maxHeartbeats 1000000

namespace HealthGuardian

/-- JSON-like values, modelling the Python dict/list/str/int values that flow
through `ai_analyzer.py` (`json.loads` output and the dicts the code builds).
Numbers are restricted to integers, which covers every numeric literal this
program constructs or that the claims probe. -/
inductive Json where
  | null : Json
  | bool : Bool → Json
  | num : Int → Json
  | str : String → Json
  | arr : List Json → Json
  | obj : List (String × Json) → Json

/-- Dictionary lookup, modelling Python `d[k]` / `d.get(k)` on a JSON object:
first matching key wins.  On any non-object value the Python indexing
expression would raise (TypeError/KeyError), which the orchestrator's generic
exception handler turns into fallback; we model that as `none`. -/
def Json.get? : Json → String → Option Json
  | .obj kvs, k => kvs.lookup k
  | _, _ => none

/-- Number of keys of a JSON object (0 on other values); used to separate
concrete results. -/
def Json.numFields : Json → Nat
  | .obj kvs => kvs.length
  | _ => 0

/- ## Unit Parser (k8s_monitor.py, get_resource_usage lines 110-116)

Python quantities are parsed with `int(...)` and true division.  We model
Python `int` division results with `ℚ` (the claims only probe values that are
exact in both binary floating point and `ℚ`, e.g. 500, 0.5, 1024). -/

/-- Digit-sequence part of Python `int(str)`: a non-empty run of ASCII digits
in which single underscores may appear between digits (`"1_0"` is `10`, while
`"_1"`, `"1_"`, `"1__0"` and `""` all raise ValueError, modelled as `none`). -/
def pyIntDigitsGo (acc : Nat) : List Char → Option Nat
  | [] => some acc
  | '_' :: c :: rest =>
      if c.isDigit then pyIntDigitsGo (acc * 10 + (c.toNat - 48)) rest else none
  | ['_'] => none
  | c :: rest =>
      if c.isDigit then pyIntDigitsGo (acc * 10 + (c.toNat - 48)) rest else none

/-- Parse the digit part of a Python integer literal (see `pyIntDigitsGo`). -/
def pyIntDigits : List Char → Option Nat
  | [] => none
  | c :: rest => if c.isDigit then pyIntDigitsGo (c.toNat - 48) rest else none

/-- ASCII whitespace stripped by Python `int` (space, tab, newline, carriage
return, vertical tab, form feed). -/
def isPySpace (c : Char) : Bool :=
  c = ' ' ∨ c = '\t' ∨ c = '\n' ∨ c = '\r' ∨ c = '\x0b' ∨ c = '\x0c'

/-- Strip leading and trailing whitespace. -/
def pyStrip (cs : List Char) : List Char :=
  ((cs.dropWhile isPySpace).reverse.dropWhile isPySpace).reverse

/-- Python `int(s)`: strip surrounding whitespace, optional sign, then a
digit run (with underscore grouping).  `none` models a raised ValueError.
(Python also accepts some unicode digits/spaces; the program only ever feeds
this ASCII Kubernetes quantity strings, which this covers.) -/
def pyInt (s : String) : Option Int :=
  match pyStrip s.data with
  | '-' :: rest => (pyIntDigits rest).map (fun n => -(n : Int))
  | '+' :: rest => (pyIntDigits rest).map (fun n => (n : Int))
  | cs => (pyIntDigits cs).map (fun n => (n : Int))

/-- Python `s.replace('n', '')`: removes every occurrence of the character. -/
def removeChar (c : Char) (s : String) : String :=
  String.mk (s.data.filter (fun x => x ≠ c))

/-- Python `s.replace('Ki', '')`: removes every (left-to-right,
non-overlapping) occurrence of the two-character substring. -/
def removeKi : List Char → List Char
  | 'K' :: 'i' :: rest => removeKi rest
  | c :: rest => c :: removeKi rest
  | [] => []

/-- Python `'Ki' in s`: substring containment test. -/
def containsKi : List Char → Bool
  | 'K' :: 'i' :: _ => true
  | _ :: rest => containsKi rest
  | [] => false

/-- Line 114 of k8s_monitor.py:
`cpu_value = int(cpu.replace('n', '')) / 1_000_000 if 'n' in cpu else 0`.
`none` models the ValueError escaping from `int`. -/
def parse_cpu (cpu : String) : Option ℚ :=
  if cpu.data.contains 'n' then
    (pyInt (removeChar 'n' cpu)).map (fun i => (i : ℚ) / 1000000)
  else some 0

/-- Line 116 of k8s_monitor.py:
`mem_value = int(memory.replace('Ki', '')) / 1024 if 'Ki' in memory else 0`. -/
def parse_mem (memory : String) : Option ℚ :=
  if containsKi memory.data then
    (pyInt (String.mk (removeKi memory.data))).map (fun i => (i : ℚ) / 1024)
  else some 0

/- ## get_resource_usage (k8s_monitor.py lines 91-140) -/

/-- One container's `usage` dict.  The source reads the keys with
`container['usage'].get('cpu', '0')` / `.get('memory', '0')`; an absent key is
represented here by the defaulted string `"0"`. -/
structure ContainerUsage where
  cpu : String
  memory : String

/-- One entry of the pod-metrics listing (`metadata.name`,
`metadata.namespace`, `containers`). -/
structure PodMetric where
  name : String
  ns : String
  containers : List ContainerUsage

/-- Entry of `high_cpu_pods` (pod, namespace, cpu_millicores rounded to two
decimals). -/
structure HighCpuPod where
  pod : String
  ns : String
  cpu_millicores : ℚ

/-- Entry of `high_memory_pods` (pod, namespace, memory_mi rounded to two
decimals). -/
structure HighMemoryPod where
  pod : String
  ns : String
  memory_mi : ℚ

/-- The `usage_summary` dict built by get_resource_usage. -/
structure UsageSummary where
  total_cpu_usage : ℚ
  total_memory_usage : ℚ
  pod_count : Nat
  high_cpu_pods : List HighCpuPod
  high_memory_pods : List HighMemoryPod

/-- Result of get_resource_usage: either the usage summary or — when any
exception escapes the loop — the `{'error': str(e)}` record.  The payload of
`err` records the offending quantity literal (the information Python's
ValueError message carries); the exact message text is not modelled. -/
inductive UsageResult where
  | ok : UsageSummary → UsageResult
  | err : String → UsageResult

/-- Python `round(x, 2)`.  (CPython rounds the nearest float half to even;
the claims never observe a tie, so integer rounding of `100·x` is faithful on
every probed input.) -/
def round2 (q : ℚ) : ℚ := ((round (q * 100) : ℤ) : ℚ) / 100

/-- The inner `for container in pod.get('containers', [])` loop body
(lines 109-135): parse both quantities, accumulate the totals and the pod
count, then flag high CPU (> 500 millicores) and high memory (> 1024 MiB).
The first parse failure aborts the whole computation (the ValueError
propagates out of both loops). -/
def processContainers (pod : PodMetric) (acc : UsageSummary) :
    List ContainerUsage → Except String UsageSummary
  | [] => .ok acc
  | c :: rest =>
    match parse_cpu c.cpu with
    | none => .error c.cpu
    | some cpu_value =>
      match parse_mem c.memory with
      | none => .error c.memory
      | some mem_value =>
        let acc := { acc with
          total_cpu_usage := acc.total_cpu_usage + cpu_value,
          total_memory_usage := acc.total_memory_usage + mem_value,
          pod_count := acc.pod_count + 1 }
        let acc := if cpu_value > 500 then
            { acc with high_cpu_pods := acc.high_cpu_pods ++
                [⟨pod.name, pod.ns, round2 cpu_value⟩] }
          else acc
        let acc := if mem_value > 1024 then
            { acc with high_memory_pods := acc.high_memory_pods ++
                [⟨pod.name, pod.ns, round2 mem_value⟩] }
          else acc
        processContainers pod acc rest

/-- The outer `for pod in pods_metrics.get('items', [])` loop. -/
def processPods (acc : UsageSummary) :
    List PodMetric → Except String UsageSummary
  | [] => .ok acc
  | p :: rest =>
    match processContainers p acc p.containers with
    | .error e => .error e
    | .ok acc => processPods acc rest

/-- get_resource_usage: run both loops starting from the zeroed summary; any
escaping exception is caught by `except Exception` and replaced by the
`{'error': ...}` record. -/
def get_resource_usage (pods : List PodMetric) : UsageResult :=
  match processPods ⟨0, 0, 0, [], []⟩ pods with
  | .ok summary => .ok summary
  | .error e => .err e

/- ## Cluster snapshot (the `cluster_data` dict built in main.py lines 25-32)

Only the fields the analysis engine reads are modelled (`timestamp` and
`nodes` are never touched by ai_analyzer.py).  The source reads every field
through defaulted `dict.get` lookups; a dict with a missing key behaves
exactly like the structure holding that default, so total fields are a
faithful embedding. -/

/-- The fields of an event dict used by `_prepare_context`
(`type`, `reason`, `message`; the remaining keys built by get_recent_events
are never read by the analysis engine). -/
structure EventRecord where
  type : String
  reason : String
  message : String

/-- The fields of a failed-pod dict used by `_prepare_context`
(`namespace`, `name`, `reason`; get_failed_pods always populates `reason`,
defaulting it to "Unknown" at construction). -/
structure FailedPodDetail where
  name : String
  ns : String
  reason : String

/-- The pod-phase counters read by the analysis engine (`total`, `running`,
`failed`, `pending`; the counters only ever start at 0 and increment, so Nat
is faithful). -/
structure PodSummary where
  total : Nat
  running : Nat
  failed : Nat
  pending : Nat

/-- The two lists the analysis engine reads from `resource_usage` via
`resource_usage.get('high_cpu_pods', [])` / `.get('high_memory_pods', [])`.
When get_resource_usage instead produced the `{'error': ...}` record, both
defaulted lookups yield `[]`, which this structure represents as two empty
lists. -/
structure ResourceUsage where
  high_cpu_pods : List HighCpuPod
  high_memory_pods : List HighMemoryPod

/-- The cluster snapshot handed to `analyze_cluster_health`. -/
structure ClusterSnapshot where
  pods : PodSummary
  events : List EventRecord
  resource_usage : ResourceUsage
  failed_pods : List FailedPodDetail

/- ## Context Summarizer (ai_analyzer.py, _prepare_context lines 122-172) -/

/-- Python `event.get('message', '')[:100]` (line 158): the message truncated to its
first 100 characters. -/
def truncMessage (e : EventRecord) : String :=
  String.mk (e.message.data.take 100)

/-- One rendered event line (line 160):
`f"  - [{event.get('type')}] {event.get('reason')}: {event_msg}"`. -/
def renderEvent (e : EventRecord) : String :=
  "  - [" ++ e.type ++ "] " ++ e.reason ++ ": " ++ truncMessage e

/-- The event lines appended by the `for event in events[:5]` loop. -/
def eventLines (events : List EventRecord) : List String :=
  (events.take 5).map renderEvent

/-- One rendered failed-pod line (line 168):
`f"  - {pod.get('namespace')}/{pod.get('name')}: {pod.get('reason', 'Unknown')}"`. -/
def renderFailedPod (p : FailedPodDetail) : String :=
  "  - " ++ p.ns ++ "/" ++ p.name ++ ": " ++ p.reason

/-- The failed-pod lines appended by the `for pod in failed_pods[:3]` loop. -/
def failedPodLines (failed_pods : List FailedPodDetail) : List String :=
  (failed_pods.take 3).map renderFailedPod

/-- The `context_parts` list built by `_prepare_context` (lines 124-170):
four always-present summary parts, then — when `events` is non-empty — a
header plus up to 5 event lines, then — when `failed_pods` is non-empty — a
header plus up to 3 failed-pod lines. -/
def contextParts (c : ClusterSnapshot) : List String :=
  let pods := c.pods
  let failed_pods := c.failed_pods
  let high_cpu := c.resource_usage.high_cpu_pods
  let high_mem := c.resource_usage.high_memory_pods
  let events := c.events
  let warning_events := events.filter (fun e => e.type == "Warning")
  let normal_events := events.filter (fun e => e.type == "Normal")
  [ "Pod Summary: " ++ toString pods.total ++ " total, "
      ++ toString pods.running ++ " running, "
      ++ toString pods.failed ++ " failed, "
      ++ toString pods.pending ++ " pending",
    "\nFailed Pods: " ++ toString failed_pods.length ++ " pods in failed state",
    "High Resource Usage: " ++ toString high_cpu.length
      ++ " pods with high CPU, " ++ toString high_mem.length
      ++ " pods with high memory",
    "\nRecent Events: " ++ toString warning_events.length ++ " warnings, "
      ++ toString normal_events.length ++ " normal" ]
  ++ (if events.isEmpty then [] else "\nTop Recent Events:" :: eventLines events)
  ++ (if failed_pods.isEmpty then []
      else "\nFailed Pod Details:" :: failedPodLines failed_pods)

/-- The `_prepare_context` method (line 172): `"\n".join(context_parts)`. -/
def _prepare_context (c : ClusterSnapshot) : String :=
  String.intercalate "\n" (contextParts c)

/- ## Fallback Scorer (ai_analyzer.py, _fallback_analysis lines 174-254)

The source updates `health_score`, `issues` and `recommendations` inside one
sequence of independently-guarded blocks (no guard reads a value another
block wrote), so the per-field projections below compute exactly the values
those three locals hold at line 232; `_fallback_analysis` reassembles the
returned dict from them. -/

/-- The value of the local `health_score` just before the final
`max(health_score, 0)` clamp: 100, minus 20 when `pods.get('failed', 0) > 0`
(line 185), minus 10 when `high_cpu_pods` is non-empty (line 200), minus 10
when `high_mem_pods` is non-empty (line 215), minus 5 when
`pods.get('pending', 0) > 0` (line 224). -/
def fallback_raw_score (c : ClusterSnapshot) : Int :=
  let s : Int := 100
  let s := if c.pods.failed > 0 then s - 20 else s
  let s := if c.resource_usage.high_cpu_pods.length > 0 then s - 10 else s
  let s := if c.resource_usage.high_memory_pods.length > 0 then s - 10 else s
  let s := if c.pods.pending > 0 then s - 5 else s
  s

/-- The `issues` list accumulated by the four guarded blocks, in source
order: Critical (failed pods), Warning (high CPU), Warning (high memory),
Info (pending pods). -/
def fallback_issues (c : ClusterSnapshot) : List Json :=
  let issues : List Json := []
  let issues := if c.pods.failed > 0 then issues ++
      [Json.obj [("severity", .str "Critical"),
                 ("title", .str (toString c.pods.failed ++ " Failed Pods")),
                 ("description",
                  .str "Pods are in failed state and need investigation")]]
    else issues
  let issues := if c.resource_usage.high_cpu_pods.length > 0 then issues ++
      [Json.obj [("severity", .str "Warning"),
                 ("title", .str "High CPU Usage Detected"),
                 ("description",
                  .str (toString c.resource_usage.high_cpu_pods.length
                        ++ " pods using >500m CPU"))]]
    else issues
  let issues := if c.resource_usage.high_memory_pods.length > 0 then issues ++
      [Json.obj [("severity", .str "Warning"),
                 ("title", .str "High Memory Usage Detected"),
                 ("description",
                  .str (toString c.resource_usage.high_memory_pods.length
                        ++ " pods using >1Gi memory"))]]
    else issues
  let issues := if c.pods.pending > 0 then issues ++
      [Json.obj [("severity", .str "Info"),
                 ("title", .str (toString c.pods.pending ++ " Pods Pending")),
                 ("description", .str "Pods waiting to be scheduled")]]
    else issues
  issues

/-- The `recommendations` list: only the failed-pod block (high priority) and
the high-CPU block (medium priority) append one; the high-memory and pending
blocks append none. -/
def fallback_recommendations (c : ClusterSnapshot) : List Json :=
  let recommendations : List Json := []
  let recommendations := if c.pods.failed > 0 then recommendations ++
      [Json.obj [("priority", .str "high"),
                 ("action", .str "Investigate failed pods"),
                 ("command",
                  .str "kubectl get pods --all-namespaces --field-selector=status.phase=Failed")]]
    else recommendations
  let recommendations :=
    if c.resource_usage.high_cpu_pods.length > 0 then recommendations ++
      [Json.obj [("priority", .str "medium"),
                 ("action", .str "Review pod resource limits"),
                 ("command",
                  .str "kubectl top pods --all-namespaces --sort-by=cpu")]]
    else recommendations
  recommendations

/-- The `summary` local (lines 232-238): first bound to the default string,
then unconditionally reassigned by the exhaustive if/elif/else band chain on
`health_score`. -/
def fallback_summary (c : ClusterSnapshot) : String :=
  let summary := "Cluster health analysis (AI unavailable - using rule-based fallback)"
  let summary := if fallback_raw_score c ≥ 90 then
      "Cluster is healthy with minor issues"
    else if fallback_raw_score c ≥ 70 then
      "Cluster has some issues requiring attention"
    else
      "Cluster has significant issues requiring immediate attention"
  summary

/-- The dict returned by `_fallback_analysis` (lines 240-254): clamped score,
banded summary, the issues (with the Info "No Issues Detected" entry
synthesized when the list is empty), always-empty predictions, and the
recommendations (with the low-priority "Continue monitoring" entry
synthesized when the list is empty). -/
def _fallback_analysis (c : ClusterSnapshot) : Json :=
  Json.obj [
    ("health_score", .num (max (fallback_raw_score c) 0)),
    ("summary", .str (fallback_summary c)),
    ("issues", .arr (if (fallback_issues c).isEmpty then
        [Json.obj [("severity", .str "Info"),
                   ("title", .str "No Issues Detected"),
                   ("description", .str "Cluster appears healthy")]]
      else fallback_issues c)),
    ("predictions", .arr []),
    ("recommendations", .arr (if (fallback_recommendations c).isEmpty then
        [Json.obj [("priority", .str "low"),
                   ("action", .str "Continue monitoring"),
                   ("command", .str "kubectl get pods --all-namespaces")]]
      else fallback_recommendations c))]

/- ## json.loads (the stdlib parser the orchestrator calls on the extracted
span)

A total model of Python `json.loads` restricted to the sublanguage without
float literals (`1.5`, `1e3`, `NaN`, `Infinity`) and without `\u` string
escapes; on those inputs this model reports a parse failure where CPython
would succeed.  Every JSON text the program's claims probe lies inside the
modelled sublanguage. -/

/-- Skip JSON whitespace (space, tab, newline, carriage return). -/
def skipWs : List Char → List Char
  | c :: rest =>
      if c = ' ' ∨ c = '\t' ∨ c = '\n' ∨ c = '\r' then skipWs rest else c :: rest
  | [] => []

/-- Parse the body of a JSON string (the opening quote already consumed),
returning the decoded characters and the remainder after the closing quote.
Raw control characters are rejected (strict mode default). -/
def parseStringChars : List Char → Option (List Char × List Char)
  | [] => none
  | '"' :: rest => some ([], rest)
  | '\\' :: e :: rest =>
    (match e with
     | '"' => some '"'
     | '\\' => some '\\'
     | '/' => some '/'
     | 'b' => some (Char.ofNat 8)
     | 'f' => some (Char.ofNat 12)
     | 'n' => some '\n'
     | 'r' => some '\r'
     | 't' => some '\t'
     | _ => none).bind fun c =>
        (parseStringChars rest).map
          fun (p : List Char × List Char) => (c :: p.1, p.2)
  | c :: rest =>
      if c.toNat < 32 then none
      else (parseStringChars rest).map
        fun (p : List Char × List Char) => (c :: p.1, p.2)

/-- Split a leading run of ASCII digits off a character list. -/
def takeDigits : List Char → (List Char × List Char)
  | c :: rest =>
      if c.isDigit then
        let p := takeDigits rest
        (c :: p.1, p.2)
      else ([], c :: rest)
  | [] => ([], [])

/-- Numeric value of a digit run. -/
def digitsToNat (acc : Nat) : List Char → Nat
  | [] => acc
  | c :: rest => digitsToNat (acc * 10 + (c.toNat - 48)) rest

/-- Parse a JSON integer literal: optional minus, `0` or a nonzero-led digit
run, not followed by a fraction or exponent (floats are outside the modelled
sublanguage). -/
def parseJsonInt (cs : List Char) : Option (Int × List Char) :=
  let signed : Bool × List Char :=
    match cs with
    | '-' :: rest => (true, rest)
    | _ => (false, cs)
  match takeDigits signed.2 with
  | ([], _) => none
  | (ds, rem) =>
    match ds with
    | '0' :: _ :: _ => none
    | _ =>
      match rem with
      | '.' :: _ => none
      | 'e' :: _ => none
      | 'E' :: _ => none
      | _ =>
        let n : Int := digitsToNat 0 ds
        some (if signed.1 then -n else n, rem)

mutual

/-- Parse one JSON value from the input, fuel-bounded (each recursive descent
consumes at least one character, so fuel `length + 1` always suffices). -/
def parseValue : Nat → List Char → Option (Json × List Char)
  | 0, _ => none
  | fuel + 1, input =>
    match skipWs input with
    | '{' :: rest =>
      (match skipWs rest with
       | '}' :: rem => some (.obj [], rem)
       | cs => parseMembers fuel cs [])
    | '[' :: rest =>
      (match skipWs rest with
       | ']' :: rem => some (.arr [], rem)
       | cs => parseElems fuel cs [])
    | '"' :: rest =>
        (parseStringChars rest).map fun p => (.str (String.mk p.1), p.2)
    | 't' :: 'r' :: 'u' :: 'e' :: rest => some (.bool true, rest)
    | 'f' :: 'a' :: 'l' :: 's' :: 'e' :: rest => some (.bool false, rest)
    | 'n' :: 'u' :: 'l' :: 'l' :: rest => some (.null, rest)
    | cs => (parseJsonInt cs).map fun p => (.num p.1, p.2)

/-- Parse the members of a non-empty JSON object (after `{`). -/
def parseMembers : Nat → List Char → List (String × Json) →
    Option (Json × List Char)
  | 0, _, _ => none
  | fuel + 1, input, acc =>
    match skipWs input with
    | '"' :: rest =>
      match parseStringChars rest with
      | none => none
      | some (kcs, rem) =>
        match skipWs rem with
        | ':' :: rem2 =>
          match parseValue fuel rem2 with
          | none => none
          | some (v, rem3) =>
            match skipWs rem3 with
            | ',' :: rem4 => parseMembers fuel rem4 (acc ++ [(String.mk kcs, v)])
            | '}' :: rem4 => some (.obj (acc ++ [(String.mk kcs, v)]), rem4)
            | _ => none
        | _ => none
    | _ => none

/-- Parse the elements of a non-empty JSON array (after `[`). -/
def parseElems : Nat → List Char → List Json → Option (Json × List Char)
  | 0, _, _ => none
  | fuel + 1, input, acc =>
    match parseValue fuel input with
    | none => none
    | some (v, rem) =>
      match skipWs rem with
      | ',' :: rem2 => parseElems fuel rem2 (acc ++ [v])
      | ']' :: rem2 => some (.arr (acc ++ [v]), rem2)
      | _ => none

end

/-- Python `json.loads(s)`: parse one value; anything but whitespace after it is an
error ("Extra data"). -/
def json_loads (s : String) : Option Json :=
  match parseValue (s.data.length + 1) s.data with
  | some (v, rest) => if skipWs rest = [] then some v else none
  | none => none

/- ## Analysis Orchestrator (ai_analyzer.py, analyze_cluster_health
lines 16-120) -/

/-- What came back from `requests.post` (line 78): either the call raised a
`requests.exceptions.RequestException` (connection, DNS, timeout, ...) or a
response with a status code and a body.  `body = none` models a body that is
not valid JSON, so that `response.json()` (line 87) raises. -/
inductive RemoteOutcome where
  | transportError : RemoteOutcome
  | response (status : Nat) (body : Option Json) : RemoteOutcome

/-- Python `response.raise_for_status()` raises exactly for 4xx and 5xx codes. -/
def raiseForStatusRaises (status : Nat) : Bool :=
  400 ≤ status && status < 600

/-- Line 88: `result['choices'][0]['message']['content']`, plus the line-93
requirement that the value support `.find` — i.e. be a string.  Any
KeyError/TypeError/IndexError/AttributeError on this chain is caught by one
of the handlers (lines 114-120) and modelled as `none`. -/
def getContent (result : Json) : Option String :=
  match result.get? "choices" with
  | some (.arr (first :: _)) =>
    match first.get? "message" with
    | some message =>
      match message.get? "content" with
      | some (.str s) => some s
      | _ => none
    | none => none
  | _ => none

/-- Python `s.find(c)`: index of the first occurrence (`none` models -1). -/
def findIdx (c : Char) : List Char → Option Nat
  | [] => none
  | x :: rest => if x = c then some 0 else (findIdx c rest).map (· + 1)

/-- Python `s.rfind(c)`: index of the last occurrence (`none` models -1). -/
def rfindIdx (c : Char) (cs : List Char) : Option Nat :=
  match findIdx c cs.reverse with
  | some i => some (cs.length - 1 - i)
  | none => none

/-- Python `s[a:b]` for non-negative bounds. -/
def pySlice (s : String) (a b : Nat) : String :=
  String.mk ((s.data.drop a).take (b - a))

/-- Lines 93-96: `start = analysis_text.find('{')`,
`end = analysis_text.rfind('}') + 1`, and the guard
`start >= 0 and end > start`; when the guard holds, the slice
`analysis_text[start:end]` fed to `json.loads`. -/
def jsonSpan (analysis_text : String) : Option String :=
  let start : Int :=
    match findIdx '{' analysis_text.data with
    | some i => (i : Int)
    | none => -1
  let stop : Int :=
    (match rfindIdx '}' analysis_text.data with
     | some j => (j : Int)
     | none => -1) + 1
  if 0 ≤ start ∧ start < stop then
    some (pySlice analysis_text start.toNat stop.toNat)
  else none

/-- The `analyze_cluster_health` method (lines 16-120).  The prompt built from
`_prepare_context` (lines 20-45) only shapes the outbound request, which the
`RemoteOutcome` argument abstracts; every failure along the path — transport
error, a status `raise_for_status` raises on, an undecodable body, a missing
or ill-typed `choices[0].message.content` chain, an absent JSON span, or a
span `json.loads` rejects — is caught by the handlers in lines 104-120 and
answered with `_fallback_analysis(cluster_data)`. -/
def analyze_cluster_health (outcome : RemoteOutcome)
    (cluster_data : ClusterSnapshot) : Json :=
  let _ := _prepare_context cluster_data
  match outcome with
  | .transportError => _fallback_analysis cluster_data
  | .response status body =>
    if (status != 200) && raiseForStatusRaises status then
      _fallback_analysis cluster_data
    else
      match body with
      | none => _fallback_analysis cluster_data
      | some result =>
        match getContent result with
        | none => _fallback_analysis cluster_data
        | some analysis_text =>
          match jsonSpan analysis_text with
          | none => _fallback_analysis cluster_data
          | some sub =>
            match json_loads sub with
            | some analysis_json => analysis_json
            | none => _fallback_analysis cluster_data

/- ## Spec-side comparator for claim C3 -/

/-- Key `k` is present with a non-null value. -/
def hasPopulatedField (j : Json) (k : String) : Bool :=
  match j.get? k with
  | some .null => false
  | some _ => true
  | none => false

/-- Follows the spec's words (§3 AnalysisResult, claim C3): all five result
fields are present and populated (non-null). -/
def fullyPopulatedResult (j : Json) : Bool :=
  hasPopulatedField j "health_score" && hasPopulatedField j "summary" &&
  hasPopulatedField j "issues" && hasPopulatedField j "predictions" &&
  hasPopulatedField j "recommendations"

/- ## Concrete snapshots used by witnesses and counterexamples -/

/-- A healthy snapshot: no failed pods, no high usage, nothing pending. -/
def snapA : ClusterSnapshot := ⟨⟨10, 10, 0, 0⟩, [], ⟨[], []⟩, []⟩

/-- A snapshot on which all four deduction rules fire. -/
def snapC : ClusterSnapshot :=
  ⟨⟨10, 5, 1, 2⟩, [], ⟨[⟨"p", "ns1", 600⟩], [⟨"q", "ns2", 2000⟩]⟩, []⟩

/- ## Shared evaluation lemmas for the Unit Parser -/

/-- Evaluate `parse_cpu` on a string containing the marker whose stripped
remainder is a valid integer. -/
lemma parse_cpu_eval (s : String) (n : Int)
    (h1 : s.data.contains 'n' = true)
    (h2 : pyInt (removeChar 'n' s) = some n) :
    parse_cpu s = some ((n : ℚ) / 1000000) := by
  unfold parse_cpu
  rw [h1, h2]
  simp

/-- Evaluate `parse_cpu` on a string containing the marker whose stripped
remainder is not a valid integer: the ValueError propagates. -/
lemma parse_cpu_err (s : String)
    (h1 : s.data.contains 'n' = true)
    (h2 : pyInt (removeChar 'n' s) = none) :
    parse_cpu s = none := by
  unfold parse_cpu
  rw [h1, h2]
  simp

/-- Evaluate `parse_mem` on a string containing the marker whose stripped
remainder is a valid integer. -/
lemma parse_mem_eval (s : String) (n : Int)
    (h1 : containsKi s.data = true)
    (h2 : pyInt (String.mk (removeKi s.data)) = some n) :
    parse_mem s = some ((n : ℚ) / 1024) := by
  unfold parse_mem
  rw [h1, h2]
  simp

/- ## Shared lemmas about the Fallback Scorer -/

/-- The pre-clamp score is always between 55 and 100: the four deductions
subtract at most 20 + 10 + 10 + 5 from 100. -/
lemma fallback_raw_score_bounds (c : ClusterSnapshot) :
    55 ≤ fallback_raw_score c ∧ fallback_raw_score c ≤ 100 := by
  constructor <;> (simp only [fallback_raw_score]; split_ifs <;> omega)

/-- Claim C2: for every cluster snapshot the Fallback Scorer's output has a
health_score in [0,100], a non-empty issues list (the single Info
"No Issues Detected" entry when no rule fired), a non-empty recommendations
list (the single low-priority "Continue monitoring" entry when no rule
emitted one), and an empty predictions list. -/
theorem C2_fallback_invariants (c : ClusterSnapshot) :
    ∃ issues recommendations,
      _fallback_analysis c = Json.obj [
        ("health_score", .num (max (fallback_raw_score c) 0)),
        ("summary", .str (fallback_summary c)),
        ("issues", .arr issues),
        ("predictions", .arr []),
        ("recommendations", .arr recommendations)]
      ∧ 0 ≤ max (fallback_raw_score c) 0
      ∧ max (fallback_raw_score c) 0 ≤ 100
      ∧ issues ≠ []
      ∧ recommendations ≠ []
      ∧ (fallback_issues c = [] →
          issues = [Json.obj [("severity", .str "Info"),
                              ("title", .str "No Issues Detected"),
                              ("description", .str "Cluster appears healthy")]])
      ∧ (fallback_recommendations c = [] →
          recommendations =
            [Json.obj [("priority", .str "low"),
                       ("action", .str "Continue monitoring"),
                       ("command", .str "kubectl get pods --all-namespaces")]]) := by
  refine ⟨_, _, rfl, le_max_right _ _,
    max_le (fallback_raw_score_bounds c).2 (by norm_num), ?_, ?_, ?_, ?_⟩
  · cases h : fallback_issues c <;> simp [h]
  · cases h : fallback_recommendations c <;> simp [h]
  · intro h; simp [h]
  · intro h; simp [h]

/-- Claim C2 witness: the invariants evaluated on the healthy snapshot, where
both placeholder entries are synthesized. -/
theorem C2_fallback_invariants_witness :
    _fallback_analysis snapA = Json.obj [
      ("health_score", .num (max (fallback_raw_score snapA) 0)),
      ("summary", .str (fallback_summary snapA)),
      ("issues", .arr [Json.obj [("severity", .str "Info"),
                                 ("title", .str "No Issues Detected"),
                                 ("description", .str "Cluster appears healthy")]]),
      ("predictions", .arr []),
      ("recommendations", .arr
        [Json.obj [("priority", .str "low"),
                   ("action", .str "Continue monitoring"),
                   ("command", .str "kubectl get pods --all-namespaces")]])] := by
  obtain ⟨issues, recommendations, heq, _, _, _, _, hsi, hsr⟩ :=
    C2_fallback_invariants snapA
  rw [heq, hsi rfl, hsr rfl]

/-- Claim C5: when all four deduction rules fire, the Fallback Scorer returns
score 55, exactly four issues (Critical, Warning, Warning, Info, in source
order), exactly two recommendations (high then medium), and the
"significant issues" summary. -/
theorem C5_all_rules_fire (c : ClusterSnapshot)
    (h1 : c.pods.failed > 0)
    (h2 : c.resource_usage.high_cpu_pods.length > 0)
    (h3 : c.resource_usage.high_memory_pods.length > 0)
    (h4 : c.pods.pending > 0) :
    _fallback_analysis c = Json.obj [
      ("health_score", .num 55),
      ("summary", .str "Cluster has significant issues requiring immediate attention"),
      ("issues", .arr [
        Json.obj [("severity", .str "Critical"),
                  ("title", .str (toString c.pods.failed ++ " Failed Pods")),
                  ("description",
                   .str "Pods are in failed state and need investigation")],
        Json.obj [("severity", .str "Warning"),
                  ("title", .str "High CPU Usage Detected"),
                  ("description",
                   .str (toString c.resource_usage.high_cpu_pods.length
                         ++ " pods using >500m CPU"))],
        Json.obj [("severity", .str "Warning"),
                  ("title", .str "High Memory Usage Detected"),
                  ("description",
                   .str (toString c.resource_usage.high_memory_pods.length
                         ++ " pods using >1Gi memory"))],
        Json.obj [("severity", .str "Info"),
                  ("title", .str (toString c.pods.pending ++ " Pods Pending")),
                  ("description", .str "Pods waiting to be scheduled")]]),
      ("predictions", .arr []),
      ("recommendations", .arr [
        Json.obj [("priority", .str "high"),
                  ("action", .str "Investigate failed pods"),
                  ("command",
                   .str "kubectl get pods --all-namespaces --field-selector=status.phase=Failed")],
        Json.obj [("priority", .str "medium"),
                  ("action", .str "Review pod resource limits"),
                  ("command",
                   .str "kubectl top pods --all-namespaces --sort-by=cpu")]])] := by
  have hscore : fallback_raw_score c = 55 := by
    simp [fallback_raw_score, h1, h2, h3, h4]
  have hsummary : fallback_summary c =
      "Cluster has significant issues requiring immediate attention" := by
    simp [fallback_summary, hscore]
  simp [_fallback_analysis, fallback_issues, fallback_recommendations,
    h1, h2, h3, h4, hscore, hsummary]

/-- Claim C5 witness: the four-rule scenario at a concrete snapshot
(1 failed pod, 1 high-CPU pod, 1 high-memory pod, 2 pending pods). -/
theorem C5_all_rules_fire_witness :
    _fallback_analysis snapC = Json.obj [
      ("health_score", .num 55),
      ("summary", .str "Cluster has significant issues requiring immediate attention"),
      ("issues", .arr [
        Json.obj [("severity", .str "Critical"),
                  ("title", .str (toString snapC.pods.failed ++ " Failed Pods")),
                  ("description",
                   .str "Pods are in failed state and need investigation")],
        Json.obj [("severity", .str "Warning"),
                  ("title", .str "High CPU Usage Detected"),
                  ("description",
                   .str (toString snapC.resource_usage.high_cpu_pods.length
                         ++ " pods using >500m CPU"))],
        Json.obj [("severity", .str "Warning"),
                  ("title", .str "High Memory Usage Detected"),
                  ("description",
                   .str (toString snapC.resource_usage.high_memory_pods.length
                         ++ " pods using >1Gi memory"))],
        Json.obj [("severity", .str "Info"),
                  ("title", .str (toString snapC.pods.pending ++ " Pods Pending")),
                  ("description", .str "Pods waiting to be scheduled")]]),
      ("predictions", .arr []),
      ("recommendations", .arr [
        Json.obj [("priority", .str "high"),
                  ("action", .str "Investigate failed pods"),
                  ("command",
                   .str "kubectl get pods --all-namespaces --field-selector=status.phase=Failed")],
        Json.obj [("priority", .str "medium"),
                  ("action", .str "Review pod resource limits"),
                  ("command",
                   .str "kubectl top pods --all-namespaces --sort-by=cpu")]])] :=
  C5_all_rules_fire snapC (by decide) (by decide) (by decide) (by decide)

/-- Claim C6: the Fallback Scorer's summary is selected solely by the score
bands (≥90, ≥70, else), and the distinct default string is never returned —
the initial binding is dead. -/
theorem C6_summary_bands (c : ClusterSnapshot) :
    (_fallback_analysis c).get? "summary" = some (.str (fallback_summary c))
    ∧ fallback_summary c =
        (if fallback_raw_score c ≥ 90 then "Cluster is healthy with minor issues"
         else if fallback_raw_score c ≥ 70 then
           "Cluster has some issues requiring attention"
         else "Cluster has significant issues requiring immediate attention")
    ∧ fallback_summary c ≠
        "Cluster health analysis (AI unavailable - using rule-based fallback)" := by
  refine ⟨rfl, rfl, ?_⟩
  simp only [fallback_summary]
  split_ifs <;> decide

/-- Claim C6 witness: the band selection and the deadness of the default
string, evaluated on the healthy snapshot. -/
theorem C6_summary_bands_witness :
    (_fallback_analysis snapA).get? "summary" =
      some (.str (fallback_summary snapA))
    ∧ fallback_summary snapA =
        (if fallback_raw_score snapA ≥ 90 then "Cluster is healthy with minor issues"
         else if fallback_raw_score snapA ≥ 70 then
           "Cluster has some issues requiring attention"
         else "Cluster has significant issues requiring immediate attention")
    ∧ fallback_summary snapA ≠
        "Cluster health analysis (AI unavailable - using rule-based fallback)" :=
  C6_summary_bands snapA

/-- Claim C9: the pre-clamp score is at least 55 (and at most 100), so the
final `max(health_score, 0)` clamp never changes the value stored in the
result. -/
theorem C9_score_at_least_55 (c : ClusterSnapshot) :
    55 ≤ fallback_raw_score c
    ∧ fallback_raw_score c ≤ 100
    ∧ max (fallback_raw_score c) 0 = fallback_raw_score c
    ∧ (_fallback_analysis c).get? "health_score" =
        some (.num (fallback_raw_score c)) := by
  obtain ⟨hlo, hhi⟩ := fallback_raw_score_bounds c
  have hmax : max (fallback_raw_score c) 0 = fallback_raw_score c :=
    max_eq_left (by omega)
  refine ⟨hlo, hhi, hmax, ?_⟩
  have : (_fallback_analysis c).get? "health_score" =
      some (.num (max (fallback_raw_score c) 0)) := rfl
  rw [this, hmax]

/- ## Orchestrator claims -/

/-- Claim C1 (amended): every failure the handlers catch — a transport
error, a status `raise_for_status` raises on (4xx/5xx), an undecodable
response body, a missing or ill-typed content chain, an absent JSON span, or
a span `json.loads` rejects — makes `analyze_cluster_health` return exactly
the Fallback Scorer's result for the same snapshot, raising nothing. -/
theorem C1_failures_fall_back (c : ClusterSnapshot) :
    analyze_cluster_health .transportError c = _fallback_analysis c
    ∧ (∀ status body, 400 ≤ status → status < 600 →
        analyze_cluster_health (.response status body) c = _fallback_analysis c)
    ∧ (∀ status,
        analyze_cluster_health (.response status none) c = _fallback_analysis c)
    ∧ (∀ status result, getContent result = none →
        analyze_cluster_health (.response status (some result)) c =
          _fallback_analysis c)
    ∧ (∀ status result text, getContent result = some text →
        jsonSpan text = none →
        analyze_cluster_health (.response status (some result)) c =
          _fallback_analysis c)
    ∧ (∀ status result text sub, getContent result = some text →
        jsonSpan text = some sub → json_loads sub = none →
        analyze_cluster_health (.response status (some result)) c =
          _fallback_analysis c) := by
  refine ⟨rfl, ?_, ?_, ?_, ?_, ?_⟩
  · intro status body h1 h2
    have hb : ((status != 200) && raiseForStatusRaises status) = true := by
      simp [raiseForStatusRaises]
      omega
    simp [analyze_cluster_health, hb]
  · intro status
    cases hb : ((status != 200) && raiseForStatusRaises status) <;>
      simp [analyze_cluster_health, hb]
  · intro status result h
    cases hb : ((status != 200) && raiseForStatusRaises status) <;>
      simp [analyze_cluster_health, hb, h]
  · intro status result text h1 h2
    cases hb : ((status != 200) && raiseForStatusRaises status) <;>
      simp [analyze_cluster_health, hb, h1, h2]
  · intro status result text sub h1 h2 h3
    cases hb : ((status != 200) && raiseForStatusRaises status) <;>
      simp [analyze_cluster_health, hb, h1, h2, h3]

/-- Claim C1 witness: an HTTP 500 and a transport error both yield the
fallback result on a concrete snapshot. -/
theorem C1_failures_fall_back_witness :
    analyze_cluster_health (.response 500 none) snapA = _fallback_analysis snapA
    ∧ analyze_cluster_health .transportError snapA = _fallback_analysis snapA :=
  ⟨(C1_failures_fall_back snapA).2.1 500 none (by norm_num) (by norm_num),
   (C1_failures_fall_back snapA).1⟩

/-- A response body whose first choice's content embeds a parseable JSON
object in surrounding prose. -/
def body304 : Json :=
  .obj [("choices", .arr [.obj [("message",
    .obj [("content", .str "noise \x7b\"health_score\": 77\x7d tail")])]])]

/-- Claim C1 counterexample: a non-2xx status outside 4xx/5xx (here 304) is
not treated as a failure — `raise_for_status` does not raise, the code
proceeds to extraction, and the parsed object, not the fallback result, is
returned. -/
theorem C1_non2xx_proceeds_counterexample :
    analyze_cluster_health (.response 304 (some body304)) snapA =
      Json.obj [("health_score", Json.num 77)]
    ∧ analyze_cluster_health (.response 304 (some body304)) snapA ≠
        _fallback_analysis snapA := by
  refine ⟨rfl, fun h => ?_⟩
  have h3 := congrArg Json.numFields h
  have e1 : Json.numFields
      (analyze_cluster_health (.response 304 (some body304)) snapA) = 1 := rfl
  have e2 : Json.numFields (_fallback_analysis snapA) = 5 := rfl
  rw [e1, e2] at h3
  exact absurd h3 (by decide)

/-- A response body whose content is the bare JSON object text. -/
def bodyBare : Json :=
  .obj [("choices", .arr [.obj [("message",
    .obj [("content", .str "\x7b\x7d")])]])]

/-- Claim C3 counterexample: a 200 response whose content is `"\x7b\x7d"`
parses successfully, is returned as-is, and has no `health_score` (nor any
other) field — the extraction path gives no field-presence guarantee. -/
theorem C3_trusted_as_is_counterexample :
    analyze_cluster_health (.response 200 (some bodyBare)) snapA = Json.obj []
    ∧ (analyze_cluster_health (.response 200 (some bodyBare)) snapA).get?
        "health_score" = none
    ∧ fullyPopulatedResult
        (analyze_cluster_health (.response 200 (some bodyBare)) snapA) = false :=
  ⟨rfl, rfl, rfl⟩

/-- Claim C3 (amended): every fallback-path result has all five
AnalysisResult fields present and populated; extraction-path results are the
parsed object as-is, with no such guarantee. -/
theorem C3_fallback_fully_populated (c : ClusterSnapshot) :
    fullyPopulatedResult (_fallback_analysis c) = true
    ∧ fullyPopulatedResult (analyze_cluster_health .transportError c) = true :=
  ⟨rfl, rfl⟩

/-- Claim C4: on a 200 response, when the first choice's message content
contains a span from the first brace to the last brace that parses as JSON,
`analyze_cluster_health` returns exactly the parsed object, unmodified and
unvalidated, regardless of the surrounding text. -/
theorem C4_extraction_returns_parsed (c : ClusterSnapshot) (body : Json)
    (analysis_text sub : String) (v : Json)
    (hcontent : getContent body = some analysis_text)
    (hspan : jsonSpan analysis_text = some sub)
    (hparse : json_loads sub = some v) :
    analyze_cluster_health (.response 200 (some body)) c = v := by
  simp [analyze_cluster_health, hcontent, hspan, hparse]

/-- A response body with prose around the embedded JSON object. -/
def bodyE : Json :=
  .obj [("choices", .arr [.obj [("message",
    .obj [("content", .str
      "Sure! Here is the analysis: \x7b\"health_score\": 93, \"summary\": \"ok\"\x7d Done.")])]])]

/-- Claim C4 witness: the embedded object is extracted and returned exactly,
prose and all ignored. -/
theorem C4_extraction_returns_parsed_witness :
    analyze_cluster_health (.response 200 (some bodyE)) snapA =
      Json.obj [("health_score", .num 93), ("summary", .str "ok")] :=
  C4_extraction_returns_parsed snapA bodyE
    "Sure! Here is the analysis: \x7b\"health_score\": 93, \"summary\": \"ok\"\x7d Done."
    "\x7b\"health_score\": 93, \"summary\": \"ok\"\x7d"
    (Json.obj [("health_score", .num 93), ("summary", .str "ok")])
    rfl rfl rfl

/- ## Unit Parser and metrics-handler claims -/

/-- Claim C7 counterexample: `"500n000"` does not end with the nanocores
marker (its last character is `0`), yet the parser yields 0.5 (it strips the
inner `n` and parses the rest), not the 0 the claim requires for every
string lacking the suffix. -/
theorem C7_suffix_reading_counterexample :
    "500n000".data.getLast? = some '0'
    ∧ ('0' : Char) ≠ 'n'
    ∧ parse_cpu "500n000" = some (1 / 2)
    ∧ (1 / 2 : ℚ) ≠ 0 := by
  refine ⟨by decide, by decide, ?_, by norm_num⟩
  rw [parse_cpu_eval "500n000" 500000 (by decide) (by decide)]
  norm_num

/-- Claim C7 (amended): `"500000000n"` parses to 500 millicores and
`"1048576Ki"` to 1024 MiB; a quantity string that nowhere contains the
recognized marker (the character `n` for CPU, the substring `Ki` for memory)
yields 0 without error. -/
theorem C7_marker_containment_amended :
    parse_cpu "500000000n" = some 500
    ∧ parse_mem "1048576Ki" = some 1024
    ∧ (∀ s : String, s.data.contains 'n' = false → parse_cpu s = some 0)
    ∧ (∀ s : String, containsKi s.data = false → parse_mem s = some 0) := by
  refine ⟨?_, ?_, ?_, ?_⟩
  · rw [parse_cpu_eval "500000000n" 500000000 (by decide) (by decide)]
    norm_num
  · rw [parse_mem_eval "1048576Ki" 1048576 (by decide) (by decide)]
    norm_num
  · intro s h; unfold parse_cpu; rw [h]; simp
  · intro s h; unfold parse_mem; rw [h]; simp

/-- Claim C7 witness: marker-free quantity strings map to 0. -/
theorem C7_marker_containment_amended_witness :
    parse_cpu "2000m" = some 0 ∧ parse_mem "100Mi" = some 0 :=
  ⟨C7_marker_containment_amended.2.2.1 "2000m" (by decide),
   C7_marker_containment_amended.2.2.2 "100Mi" (by decide)⟩

/-- Claim C8: the Context Summarizer renders at most 5 event lines (exactly
5 from 10 or more events), each with its message truncated to at most 100
characters, and at most 3 failed-pod lines (exactly 3 from 5 or more failed
pods), whatever the input sizes. -/
theorem C8_bounded_context (c : ClusterSnapshot) :
    _prepare_context c = String.intercalate "\n" (contextParts c)
    ∧ (eventLines c.events).length = min 5 c.events.length
    ∧ (10 ≤ c.events.length → (eventLines c.events).length = 5)
    ∧ (∀ e ∈ c.events.take 5, (truncMessage e).length ≤ 100)
    ∧ (failedPodLines c.failed_pods).length = min 3 c.failed_pods.length
    ∧ (5 ≤ c.failed_pods.length → (failedPodLines c.failed_pods).length = 3) := by
  refine ⟨rfl, ?_, ?_, ?_, ?_, ?_⟩
  · simp [eventLines]
  · intro h; simp [eventLines]; omega
  · intro e _
    have hlen : (truncMessage e).length = (e.message.data.take 100).length := rfl
    rw [hlen, List.length_take]
    omega
  · simp [failedPodLines]
  · intro h; simp [failedPodLines]; omega

/-- A snapshot with 10 events and 5 failed pods. -/
def snapTen : ClusterSnapshot :=
  ⟨⟨20, 10, 5, 0⟩,
   List.replicate 10 ⟨"Warning", "BackOff", "Back-off restarting failed container"⟩,
   ⟨[], []⟩,
   List.replicate 5 ⟨"pod-x", "default", "Evicted"⟩⟩

/-- Claim C8 witness: 10 events give exactly 5 event lines and 5 failed pods
give exactly 3 failed-pod lines. -/
theorem C8_bounded_context_witness :
    (eventLines snapTen.events).length = 5
    ∧ (failedPodLines snapTen.failed_pods).length = 3 := by
  obtain ⟨_, _, h5, _, _, h3⟩ := C8_bounded_context snapTen
  exact ⟨h5 (by decide), h3 (by decide)⟩

/-- A successful `processContainers` run means every container's quantities
parsed (no ValueError was raised in the inner loop). -/
lemma processContainers_ok (p : PodMetric) :
    ∀ (cs : List ContainerUsage) (acc u : UsageSummary),
      processContainers p acc cs = .ok u →
      ∀ cu ∈ cs, parse_cpu cu.cpu ≠ none ∧ parse_mem cu.memory ≠ none := by
  intro cs
  induction cs with
  | nil => intro acc u _ cu hcu; simp at hcu
  | cons c rest ih =>
    intro acc u h cu hcu
    cases hc : parse_cpu c.cpu with
    | none =>
      simp only [processContainers, hc] at h
      exact Except.noConfusion h
    | some cpuv =>
      cases hm : parse_mem c.memory with
      | none =>
        simp only [processContainers, hc, hm] at h
        exact Except.noConfusion h
      | some memv =>
        simp only [processContainers, hc, hm] at h
        rcases List.mem_cons.mp hcu with rfl | hcu'
        · exact ⟨by simp [hc], by simp [hm]⟩
        · exact ih _ u h cu hcu'

/-- A successful `processPods` run means every quantity in every pod
parsed. -/
lemma processPods_ok :
    ∀ (ps : List PodMetric) (acc u : UsageSummary),
      processPods acc ps = .ok u →
      ∀ p ∈ ps, ∀ cu ∈ p.containers,
        parse_cpu cu.cpu ≠ none ∧ parse_mem cu.memory ≠ none := by
  intro ps
  induction ps with
  | nil => intro acc u _ p hp; simp at hp
  | cons q rest ih =>
    intro acc u h p hp
    cases hq : processContainers q acc q.containers with
    | error e =>
      simp only [processPods, hq] at h
      exact Except.noConfusion h
    | ok acc2 =>
      simp only [processPods, hq] at h
      rcases List.mem_cons.mp hp with rfl | hp'
      · exact processContainers_ok p p.containers acc acc2 hq
      · exact ih acc2 u h p hp'

/-- Claim C10: the Unit Parser recognizes markers by containment, not suffix
position — every CPU string containing `n` has all its `n`s removed and the
rest fed to `int` then divided by 1,000,000 (so `"500n000"` gives 0.5, and
`"nan"` raises, modelled as `none`); memory strings containing `Ki` behave
analogously; and any such raised ValueError is caught only by
`get_resource_usage`, which replaces the whole usage summary with an error
record. -/
theorem C10_containment_and_error_record :
    (∀ s : String, s.data.contains 'n' = true →
       parse_cpu s = (pyInt (removeChar 'n' s)).map (fun i => (i : ℚ) / 1000000))
    ∧ parse_cpu "500n000" = some (1 / 2)
    ∧ parse_cpu "nan" = none
    ∧ (∀ s : String, containsKi s.data = true →
       parse_mem s =
         (pyInt (String.mk (removeKi s.data))).map (fun i => (i : ℚ) / 1024))
    ∧ (∀ pods : List PodMetric,
        (∃ p ∈ pods, ∃ cu ∈ p.containers,
           parse_cpu cu.cpu = none ∨ parse_mem cu.memory = none) →
        ∃ msg, get_resource_usage pods = .err msg) := by
  refine ⟨?_, ?_, ?_, ?_, ?_⟩
  · intro s h; unfold parse_cpu; rw [h]; simp
  · rw [parse_cpu_eval "500n000" 500000 (by decide) (by decide)]
    norm_num
  · exact parse_cpu_err "nan" (by decide) (by decide)
  · intro s h; unfold parse_mem; rw [h]; simp
  · rintro pods ⟨p, hp, cu, hcu, hfail⟩
    cases hres : processPods ⟨0, 0, 0, [], []⟩ pods with
    | error e => exact ⟨e, by simp [get_resource_usage, hres]⟩
    | ok u =>
      exfalso
      obtain ⟨hc, hm⟩ := processPods_ok pods _ u hres p hp cu hcu
      rcases hfail with hf | hf
      · exact hc hf
      · exact hm hf

/-- Claim C10 witness: `"7n"` follows the strip-and-divide semantics, and a
pod whose CPU quantity is `"nan"` turns the whole usage summary into an
error record. -/
theorem C10_containment_and_error_record_witness :
    parse_cpu "7n" =
      (pyInt (removeChar 'n' "7n")).map (fun i => (i : ℚ) / 1000000)
    ∧ ∃ msg,
        get_resource_usage [⟨"pod-a", "default", [⟨"nan", "0"⟩]⟩] = .err msg := by
  refine ⟨C10_containment_and_error_record.1 "7n" (by decide),
    C10_containment_and_error_record.2.2.2.2 _ ?_⟩
  exact ⟨⟨"pod-a", "default", [⟨"nan", "0"⟩]⟩, by simp, ⟨"nan", "0"⟩, by simp,
    Or.inl (parse_cpu_err "nan" (by decide) (by decide))⟩

end HealthGuardian
